import Mathlib

/-!
Shallow embedding of `src/pollution_detector.cpp` (pollution classification
engine). C++ `float` values are modelled as exact rationals `ℚ`; Arduino
`millis()` timestamps (C++ `unsigned long`, 32 bits) are modelled as `ℕ`
together with an explicit wrap-around subtraction mod 2^32. Arduino `String`
is modelled as Lean `String`, with `String(float, decimals)` rendered by an
exact fixed-point decimal formatter. The global baseline variables are made
an explicit state record threaded through the functions.
-/

/-- 2^32, the modulus of Arduino `unsigned long` arithmetic. -/
def UINT32_MOD : ℕ := 4294967296

/-- Wrap-around subtraction `a - b` on 32-bit unsigned integers
(`currentTime - lastBaselineUpdate` in the C++ source). -/
def usub32 (a b : ℕ) : ℕ :=
  (a % UINT32_MOD + (UINT32_MOD - b % UINT32_MOD)) % UINT32_MOD

/-- `BASELINE_UPDATE_INTERVAL = 300000` (5 minutes), from line 6 of the source. -/
def BASELINE_UPDATE_INTERVAL : ℕ := 300000

/-- The process-wide baseline state: `vocBaseline` and `lastBaselineUpdate`
(static variables, lines 4-5 of the source). -/
structure BaselineState where
  vocBaseline : ℚ
  lastBaselineUpdate : ℕ
  deriving DecidableEq, Repr

/-- Initial values of the baseline statics: `vocBaseline = 0.5f`,
`lastBaselineUpdate = 0`. -/
def initialBaselineState : BaselineState := ⟨0.5, 0⟩

/-- `updateVOCBaseline` (lines 13-21): if `currentTime - lastBaselineUpdate >
BASELINE_UPDATE_INTERVAL` (unsigned wrap-around subtraction), replace the
baseline with `0.8*vocBaseline + 0.2*currentVOC` and stamp the time;
otherwise leave the state alone. `now` stands for the `millis()` call. -/
def updateVOCBaseline (s : BaselineState) (currentVOC : ℚ) (now : ℕ) : BaselineState :=
  if BASELINE_UPDATE_INTERVAL < usub32 now s.lastBaselineUpdate then
    ⟨0.8 * s.vocBaseline + 0.2 * currentVOC, now⟩
  else
    s

/-- Fixed-point decimal rendering of a rational, modelling Arduino
`String(float, decimals)`: sign, integer part, and `n` fractional digits
(none and no point when `n = 0`), with the magnitude rounded to the nearest
multiple of `10^-n`. -/
def formatFixed (x : ℚ) (n : ℕ) : String :=
  let sign := if x < 0 then "-" else ""
  let m : ℕ := (round (|x| * (10 : ℚ) ^ n)).toNat
  if n = 0 then
    sign ++ toString m
  else
    let ip := m / 10 ^ n
    let fp := m % 10 ^ n
    let fs := toString fp
    let pad := String.mk (List.replicate (n - fs.length) '0')
    sign ++ toString ip ++ "." ++ pad ++ fs

/-- `detectScopolamine` (lines 26-32). -/
def detectScopolamine (voc iaq pm2_5 humidity temp : ℚ) : Bool :=
  decide (0.495 ≤ voc ∧ voc ≤ 0.515 ∧
          49.5 ≤ iaq ∧ iaq ≤ 55.5 ∧
          2 ≤ pm2_5 ∧ pm2_5 ≤ 9 ∧
          78 ≤ humidity ∧ humidity ≤ 84 ∧
          29 ≤ temp ∧ temp ≤ 32)

/-- `detectHeavyMetals` (lines 35-39). -/
def detectHeavyMetals (voc iaq pm2_5 : ℚ) : Bool :=
  decide (0.53 ≤ voc ∧ voc ≤ 0.58 ∧
          54 ≤ iaq ∧ iaq ≤ 62 ∧
          25 ≤ pm2_5 ∧ pm2_5 ≤ 35)

/-- `detectOrganophosphates` (lines 42-46). -/
def detectOrganophosphates (voc iaq humidity : ℚ) : Bool :=
  decide (0.52 ≤ voc ∧ voc ≤ 0.57 ∧
          53 ≤ iaq ∧ iaq ≤ 61 ∧
          76 ≤ humidity ∧ humidity ≤ 83)

/-- `detectOpioids` (lines 49-53). -/
def detectOpioids (voc iaq pm2_5 : ℚ) : Bool :=
  decide (0.58 ≤ voc ∧ voc ≤ 0.68 ∧
          65 ≤ iaq ∧ iaq ≤ 75 ∧
          20 ≤ pm2_5 ∧ pm2_5 ≤ 30)

/-- `detectChemicalCocktail` (lines 56-60). -/
def detectChemicalCocktail (voc iaq pm2_5 : ℚ) : Bool :=
  decide (0.55 ≤ voc ∧ voc ≤ 0.65 ∧
          60 ≤ iaq ∧ iaq ≤ 70 ∧
          22 ≤ pm2_5 ∧ pm2_5 ≤ 32)

/-- `detectNeurotoxinAttack` (lines 63-68). -/
def detectNeurotoxinAttack (voc iaq pm2_5 humidity : ℚ) : Bool :=
  decide (0.52 ≤ voc ∧ voc ≤ 0.58 ∧
          54 ≤ iaq ∧ iaq ≤ 62 ∧
          25 ≤ pm2_5 ∧ pm2_5 ≤ 35 ∧
          76 ≤ humidity ∧ humidity ≤ 82)

/-- `detectBitterKnockout` (lines 71-75). -/
def detectBitterKnockout (voc iaq rawGas : ℚ) : Bool :=
  decide (0.50 ≤ voc ∧ voc ≤ 0.55 ∧
          50 ≤ iaq ∧ iaq ≤ 58 ∧
          5595 ≤ rawGas ∧ rawGas ≤ 5605)

/-- `detectGaseousWeapon` (lines 78-83). -/
def detectGaseousWeapon (iaq voc pm2_5 humidity : ℚ) : Bool :=
  decide (55 ≤ iaq ∧ iaq ≤ 70 ∧
          0.5 ≤ voc ∧ voc ≤ 0.7 ∧
          pm2_5 ≤ 2 ∧
          75 ≤ humidity ∧ humidity ≤ 85)

/-- `detectLethalOpioidWeapon` (lines 94-98). -/
def detectLethalOpioidWeapon (voc iaq pm2_5 : ℚ) : Bool :=
  decide (0.60 ≤ voc ∧ voc ≤ 0.70 ∧
          70 ≤ iaq ∧ iaq ≤ 80 ∧
          20 ≤ pm2_5 ∧ pm2_5 ≤ 30)

/-- `detectStealthChemicalAttack` (lines 101-106). -/
def detectStealthChemicalAttack (rawGas humidity temp iaq : ℚ) : Bool :=
  decide (5580 ≤ rawGas ∧ rawGas ≤ 5620 ∧
          70 ≤ humidity ∧ humidity ≤ 90 ∧
          28 ≤ temp ∧ temp ≤ 35 ∧
          45 ≤ iaq ∧ iaq ≤ 85)

/-- `detectIAQAnomaly` (lines 109-113): IAQ far from the clean-air value 50
while VOC barely deviates from the baseline. -/
def detectIAQAnomaly (iaq voc baselineVOC : ℚ) : Bool :=
  decide (8 < |iaq - 50| ∧ |voc - baselineVOC| < 0.010)

/-- The per-call result record (`DetectionResult`). -/
structure DetectionResult where
  isThreat : Bool
  isSpike : Bool
  signature : String
  deriving DecidableEq, Repr

/-- The `PollutionDetector` object: the four stored threshold fields
(lines 8-10). The classification code never reads them. -/
structure PollutionDetector where
  iaqThreshold : ℚ
  vocThreshold : ℚ
  co2Threshold : ℚ
  pm25Threshold : ℚ
  deriving DecidableEq, Repr

/-- `PollutionDetector::setThresholds` (lines 262-267). -/
def PollutionDetector.setThresholds (_d : PollutionDetector)
    (iaq voc co2 pm25 : ℚ) : PollutionDetector :=
  ⟨iaq, voc, co2, pm25⟩

/-- `PollutionDetector::isSpike` (lines 258-260). -/
def PollutionDetector.isSpike (_d : PollutionDetector)
    (currentValue baselineValue threshold : ℚ) : Bool :=
  decide (threshold < currentValue - baselineValue)

/-- Priorities 9-12 and the fallback ladder of `detect` (lines 192-255),
evaluated on the already-updated baseline state `bs1`. The final
`lowGasResistance` override (lines 251-253) applies only on the fallback
path, because every earlier branch returns directly. -/
def detectFromP9 (bs1 : BaselineState) (iaq voc temp humidity rawGas : ℚ)
    (inSpike : Bool) (pm2_5 : ℚ) : DetectionResult :=
  let lowGasResistance : Bool := decide (rawGas < 10000)
  let suspiciousGasResistance : Bool := decide (rawGas < 25000)
  if detectBitterKnockout voc iaq rawGas then
    ⟨true, inSpike, "BITTER_KNOCKOUT_DRUG_VOC:" ++ formatFixed voc 3 ++
      "_IAQ:" ++ formatFixed iaq 1⟩
  else if detectStealthChemicalAttack rawGas humidity temp iaq then
    ⟨true, inSpike, "STEALTH_CHEMICAL_IAQ:" ++ formatFixed iaq 1 ++
      "_HUM:" ++ formatFixed humidity 1 ++ "_TEMP:" ++ formatFixed temp 1⟩
  else if detectIAQAnomaly iaq voc bs1.vocBaseline then
    ⟨true, inSpike, "IAQ_ANOMALY_NO_VOC_IAQ:" ++ formatFixed iaq 1 ++
      "_VOC:" ++ formatFixed voc 3⟩
  else if 5595 ≤ rawGas ∧ rawGas ≤ 5605 then
    let vocSpike := voc - bs1.vocBaseline
    if 0.005 ≤ |vocSpike| then
      ⟨true, inSpike, "DRUG_DELIVERY_IN_LPG_VOC" ++
        (if 0 < vocSpike then "+" else "-") ++ formatFixed |vocSpike| 3 ++ "ppm"⟩
    else
      ⟨false, inSpike, "LPG_CARRIER_ONLY_VOC:" ++ formatFixed voc 3⟩
  else
    let r0 : DetectionResult :=
      if iaq ≤ 65 ∧ voc ≤ 1.2 ∧ lowGasResistance then
        ⟨true, inSpike, "STEALTH_CONTAMINATION_GasRes:" ++ formatFixed rawGas 0 ++ "Ω"⟩
      else if iaq ≤ 55 ∧ voc ≤ 0.6 ∧ suspiciousGasResistance then
        ⟨true, inSpike, "MASKED_ATTACK_GasRes:" ++ formatFixed rawGas 0 ++ "Ω"⟩
      else if iaq ≤ 35 ∧ voc ≤ 0.4 ∧ 45000 < rawGas then
        ⟨false, inSpike, "Clean_Air_IAQ" ++ formatFixed iaq 0 ++
          "_VOC" ++ formatFixed voc 2 ++ "ppm"⟩
      else
        ⟨suspiciousGasResistance, inSpike, "UNKNOWN_ANALYSIS_IAQ" ++ formatFixed iaq 0 ++
          "_VOC" ++ formatFixed voc 2 ++ "ppm"⟩
    if lowGasResistance then { r0 with isThreat := true } else r0

/-- The priority scan of `detect` (lines 128-255), computed from the
already-updated baseline state `bs1`: priorities 1-8 with an early return on
the first match, then the tail `detectFromP9` (priorities 9-12 and the
fallback ladder). -/
def detectCore (bs1 : BaselineState) (iaq voc temp humidity rawGas : ℚ)
    (inSpike : Bool) (pm2_5 : ℚ) : DetectionResult :=
  if detectLethalOpioidWeapon voc iaq pm2_5 then
    ⟨true, inSpike, "LETHAL_OPIOID_WEAPON_VOC:" ++ formatFixed voc 3 ++
      "_IAQ:" ++ formatFixed iaq 1 ++ "_EVACUATE"⟩
  else if detectChemicalCocktail voc iaq pm2_5 then
    ⟨true, inSpike, "CHEMICAL_WEAPON_COCKTAIL_VOC:" ++ formatFixed voc 3 ++
      "_IAQ:" ++ formatFixed iaq 1 ++ "_PM2.5:" ++ formatFixed pm2_5 1⟩
  else if detectNeurotoxinAttack voc iaq pm2_5 humidity then
    ⟨true, inSpike, "NEUROTOXIN_ATTACK_VOC:" ++ formatFixed voc 3 ++
      "_IAQ:" ++ formatFixed iaq 1 ++ "_FOOT_TARGETING"⟩
  else if detectHeavyMetals voc iaq pm2_5 then
    ⟨true, inSpike, "HEAVY_METAL_ATTACK_VOC:" ++ formatFixed voc 3 ++
      "_IAQ:" ++ formatFixed iaq 1 ++ "_PM2.5:" ++ formatFixed pm2_5 1⟩
  else if detectOrganophosphates voc iaq humidity then
    ⟨true, inSpike, "ORGANOPHOSPHATE_ATTACK_VOC:" ++ formatFixed voc 3 ++
      "_IAQ:" ++ formatFixed iaq 1 ++ "_HUM:" ++ formatFixed humidity 1⟩
  else if detectGaseousWeapon iaq voc pm2_5 humidity then
    ⟨true, inSpike, "GASEOUS_CHEMICAL_WEAPON_IAQ:" ++ formatFixed iaq 1 ++
      "_VOC:" ++ formatFixed voc 3 ++ "_PM2.5:" ++ formatFixed pm2_5 1⟩
  else if detectOpioids voc iaq pm2_5 then
    ⟨true, inSpike, "OPIOID_ATTACK_VOC:" ++ formatFixed voc 3 ++
      "_IAQ:" ++ formatFixed iaq 1 ++ "_PM2.5:" ++ formatFixed pm2_5 1⟩
  else if detectScopolamine voc iaq pm2_5 humidity temp then
    ⟨true, inSpike, "SCOPOLAMINE_DELIVERY_IAQ:" ++ formatFixed iaq 1 ++
      "_VOC:" ++ formatFixed voc 3 ++ "_PM2.5:" ++ formatFixed pm2_5 1⟩
  else
    detectFromP9 bs1 iaq voc temp humidity rawGas inSpike pm2_5

/-- `PollutionDetector::detect` (lines 116-256): update the baseline (the
`updateVOCBaseline(voc)` call on line 122), then run the priority scan on
the updated baseline. Returns the result together with the baseline state
after the call; `co2`, `pm1` and `pm10` are accepted but never read by the
body, exactly as in the source. -/
def PollutionDetector.detect (_d : PollutionDetector) (bs : BaselineState)
    (iaq voc _co2 temp humidity rawGas : ℚ) (inSpike : Bool)
    (_pm1 pm2_5 _pm10 : ℚ) (now : ℕ) : DetectionResult × BaselineState :=
  let bs1 := updateVOCBaseline bs voc now
  (detectCore bs1 iaq voc temp humidity rawGas inSpike pm2_5, bs1)

/-- Wrap-around subtraction of a timestamp from itself is zero. -/
theorem usub32_self (a : ℕ) : usub32 a a = 0 := by
  unfold usub32 UINT32_MOD
  omega

/-- On monotone in-range timestamps, wrap-around subtraction agrees with
truncated subtraction. -/
theorem usub32_eq_sub (a b : ℕ) (hba : b ≤ a) (ha : a < UINT32_MOD) :
    usub32 a b = a - b := by
  unfold usub32 UINT32_MOD at *
  omega

/-- Re-running the baseline update with the same VOC and the same timestamp
is a no-op: a fired update stamps `now`, making the second difference zero,
and an unfired update leaves the state (hence the condition) unchanged. -/
theorem updateVOCBaseline_post_self (s : BaselineState) (v : ℚ) (now : ℕ) :
    updateVOCBaseline (updateVOCBaseline s v now) v now = updateVOCBaseline s v now := by
  by_cases h : BASELINE_UPDATE_INTERVAL < usub32 now s.lastBaselineUpdate
  · have h1 : updateVOCBaseline s v now = ⟨0.8 * s.vocBaseline + 0.2 * v, now⟩ := by
      rw [updateVOCBaseline, if_pos h]
    rw [h1, updateVOCBaseline, if_neg]
    simp [usub32_self, BASELINE_UPDATE_INTERVAL]
  · have h1 : updateVOCBaseline s v now = s := by
      rw [updateVOCBaseline, if_neg h]
    rw [h1, updateVOCBaseline, if_neg h]

/-- C2: calling `detect` twice in immediate succession with identical sensor
inputs and identical timestamp yields an identical `DetectionResult`
(signature string included) and an identical post-state: the only side
effect is the baseline update, which is idempotent at a fixed timestamp. -/
theorem detect_idempotent (d : PollutionDetector) (bs : BaselineState)
    (iaq voc co2 temp humidity rawGas : ℚ) (inSpike : Bool)
    (pm1 pm2_5 pm10 : ℚ) (now : ℕ) :
    d.detect (d.detect bs iaq voc co2 temp humidity rawGas inSpike pm1 pm2_5 pm10 now).2
        iaq voc co2 temp humidity rawGas inSpike pm1 pm2_5 pm10 now =
      d.detect bs iaq voc co2 temp humidity rawGas inSpike pm1 pm2_5 pm10 now := by
  simp only [PollutionDetector.detect]
  rw [updateVOCBaseline_post_self]

/-- C8: the four stored threshold fields are never read by `detect`: two
detectors with arbitrarily different thresholds (in particular one freshly
overwritten by `setThresholds`) produce the same result and the same
post-state on the same sample and baseline state. -/
theorem detect_ignores_thresholds (d1 d2 : PollutionDetector) (bs : BaselineState)
    (iaq voc co2 temp humidity rawGas : ℚ) (inSpike : Bool)
    (pm1 pm2_5 pm10 : ℚ) (now : ℕ) (a b c e : ℚ) :
    d1.detect bs iaq voc co2 temp humidity rawGas inSpike pm1 pm2_5 pm10 now =
      d2.detect bs iaq voc co2 temp humidity rawGas inSpike pm1 pm2_5 pm10 now ∧
    (d1.setThresholds a b c e).detect bs iaq voc co2 temp humidity rawGas inSpike pm1 pm2_5 pm10 now =
      d1.detect bs iaq voc co2 temp humidity rawGas inSpike pm1 pm2_5 pm10 now :=
  ⟨rfl, rfl⟩

/-- C9: `detect` never reads `co2`, `pm1` or `pm10`: varying them arbitrarily
while fixing every other argument and the baseline state changes neither the
returned `DetectionResult` nor the post-state. -/
theorem detect_ignores_co2_pm1_pm10 (d : PollutionDetector) (bs : BaselineState)
    (iaq voc co2 co2' temp humidity rawGas : ℚ) (inSpike : Bool)
    (pm1 pm1' pm2_5 pm10 pm10' : ℚ) (now : ℕ) :
    d.detect bs iaq voc co2 temp humidity rawGas inSpike pm1 pm2_5 pm10 now =
      d.detect bs iaq voc co2' temp humidity rawGas inSpike pm1' pm2_5 pm10' now :=
  rfl

/-- C3 (amended): with in-range monotone timestamps, the baseline update is
a no-op when `now - lastUpdateTimestamp ≤ 300000`; when the difference
exceeds 300000 it sets `vocBaseline` to exactly `0.8*old + 0.2*currentVoc`
and stamps `now`; and two updates at most the interval apart leave
`vocBaseline` unchanged provided the first of them left
`lastUpdateTimestamp` equal to its own call time (in particular whenever
the first update fired). -/
theorem updateVOCBaseline_spec :
    (∀ (bs : BaselineState) (v : ℚ) (now : ℕ),
       bs.lastBaselineUpdate ≤ now → now < UINT32_MOD →
       now - bs.lastBaselineUpdate ≤ BASELINE_UPDATE_INTERVAL →
       updateVOCBaseline bs v now = bs) ∧
    (∀ (bs : BaselineState) (v : ℚ) (now : ℕ),
       bs.lastBaselineUpdate ≤ now → now < UINT32_MOD →
       BASELINE_UPDATE_INTERVAL < now - bs.lastBaselineUpdate →
       updateVOCBaseline bs v now = ⟨0.8 * bs.vocBaseline + 0.2 * v, now⟩) ∧
    (∀ (bs : BaselineState) (v1 v2 : ℚ) (t1 t2 : ℕ),
       t1 ≤ t2 → t2 < UINT32_MOD → t2 - t1 ≤ BASELINE_UPDATE_INTERVAL →
       (updateVOCBaseline bs v1 t1).lastBaselineUpdate = t1 →
       (updateVOCBaseline (updateVOCBaseline bs v1 t1) v2 t2).vocBaseline =
         (updateVOCBaseline bs v1 t1).vocBaseline) := by
  refine ⟨?_, ?_, ?_⟩
  · intro bs v now h1 h2 h3
    rw [updateVOCBaseline, if_neg]
    rw [usub32_eq_sub _ _ h1 h2]
    exact not_lt.mpr h3
  · intro bs v now h1 h2 h3
    rw [updateVOCBaseline, if_pos]
    rw [usub32_eq_sub _ _ h1 h2]
    exact h3
  · intro bs v1 v2 t1 t2 h1 h2 h3 h4
    rw [updateVOCBaseline, if_neg]
    rw [h4, usub32_eq_sub _ _ h1 h2]
    exact not_lt.mpr h3

/-- C3 counterexample: the claim's corollary fails as stated. Two updates
299950 ms apart (less than the 300000 ms interval) starting from the
initial state: the first (at t=100) is throttled and does not refresh the
timestamp, so the second (at t=300050) measures its distance from the stale
timestamp 0, fires, and changes `vocBaseline`. -/
theorem updateVOCBaseline_close_pair_changes :
    (300050 : ℕ) - 100 ≤ BASELINE_UPDATE_INTERVAL ∧
    (updateVOCBaseline (updateVOCBaseline initialBaselineState 0.7 100) 0.7 300050).vocBaseline ≠
      (updateVOCBaseline initialBaselineState 0.7 100).vocBaseline := by
  constructor
  · norm_num [BASELINE_UPDATE_INTERVAL]
  · norm_num [initialBaselineState, updateVOCBaseline, usub32, UINT32_MOD, BASELINE_UPDATE_INTERVAL]

/-- Witness for C3: at t=100 from the initial state the update is a no-op;
at t=300001 it fires and produces exactly `0.8*0.5 + 0.2*0.7 = 0.54`; a
second update at t=600001 (300000 ms later, within the interval) leaves the
baseline unchanged. -/
theorem updateVOCBaseline_spec_witness :
    updateVOCBaseline ⟨0.5, 0⟩ 0.7 100 = ⟨0.5, 0⟩ ∧
    updateVOCBaseline ⟨0.5, 0⟩ 0.7 300001 = ⟨0.54, 300001⟩ ∧
    (updateVOCBaseline (updateVOCBaseline ⟨0.5, 0⟩ 0.7 300001) 0.9 600001).vocBaseline =
      (updateVOCBaseline ⟨0.5, 0⟩ 0.7 300001).vocBaseline := by
  refine ⟨?_, ?_, ?_⟩
  · exact updateVOCBaseline_spec.1 ⟨0.5, 0⟩ 0.7 100 (by norm_num)
      (by norm_num [UINT32_MOD]) (by norm_num [BASELINE_UPDATE_INTERVAL])
  · rw [updateVOCBaseline_spec.2.1 ⟨0.5, 0⟩ 0.7 300001 (by norm_num)
      (by norm_num [UINT32_MOD]) (by norm_num [BASELINE_UPDATE_INTERVAL])]
    norm_num
  · refine updateVOCBaseline_spec.2.2 ⟨0.5, 0⟩ 0.7 0.9 300001 600001 (by norm_num)
      (by norm_num [UINT32_MOD]) (by norm_num [BASELINE_UPDATE_INTERVAL]) ?_
    rw [updateVOCBaseline_spec.2.1 ⟨0.5, 0⟩ 0.7 300001 (by norm_num)
      (by norm_num [UINT32_MOD]) (by norm_num [BASELINE_UPDATE_INTERVAL])]

/-- `String(0.62, 3)` renders as `"0.620"`. -/
theorem formatFixed_voc_062 : formatFixed 0.62 3 = "0.620" := by
  have habs : |(0.62 : ℚ)| = 0.62 := abs_of_nonneg (by norm_num)
  have hr : round ((0.62 : ℚ) * 10 ^ 3) = (620 : ℤ) := by
    have h : ((0.62 : ℚ) * 10 ^ 3) = ((620 : ℤ) : ℚ) := by norm_num
    rw [h, round_intCast]
  simp only [formatFixed, habs, hr]
  norm_num
  rfl

/-- `String(70, 1)` renders as `"70.0"`. -/
theorem formatFixed_iaq_70 : formatFixed 70 1 = "70.0" := by
  have habs : |(70 : ℚ)| = 70 := abs_of_nonneg (by norm_num)
  have hr : round ((70 : ℚ) * 10 ^ 1) = (700 : ℤ) := by
    have h : ((70 : ℚ) * 10 ^ 1) = ((700 : ℤ) : ℚ) := by norm_num
    rw [h, round_intCast]
  simp only [formatFixed, habs, hr]
  norm_num
  rfl

/-- C4: P1 is evaluated before P2 and `detect` returns on the first true
predicate: every sample inside both P1's and P2's bands produces P1's
`LETHAL_OPIOID_WEAPON` threat result (P2's predicate is also true on such a
sample, but its rule is never reached). -/
theorem detect_priority_P1_over_P2 (d : PollutionDetector) (bs : BaselineState)
    (iaq voc co2 temp humidity rawGas : ℚ) (inSpike : Bool)
    (pm1 pm2_5 pm10 : ℚ) (now : ℕ)
    (h1 : 0.60 ≤ voc ∧ voc ≤ 0.70 ∧ 70 ≤ iaq ∧ iaq ≤ 80 ∧ 20 ≤ pm2_5 ∧ pm2_5 ≤ 30)
    (h2 : 0.55 ≤ voc ∧ voc ≤ 0.65 ∧ 60 ≤ iaq ∧ iaq ≤ 70 ∧ 22 ≤ pm2_5 ∧ pm2_5 ≤ 32) :
    (d.detect bs iaq voc co2 temp humidity rawGas inSpike pm1 pm2_5 pm10 now).1 =
      ⟨true, inSpike, "LETHAL_OPIOID_WEAPON_VOC:" ++ formatFixed voc 3 ++
        "_IAQ:" ++ formatFixed iaq 1 ++ "_EVACUATE"⟩ ∧
    detectChemicalCocktail voc iaq pm2_5 = true := by
  have hp1 : detectLethalOpioidWeapon voc iaq pm2_5 = true := by
    simp only [detectLethalOpioidWeapon, decide_eq_true_eq]
    exact h1
  have hp2 : detectChemicalCocktail voc iaq pm2_5 = true := by
    simp only [detectChemicalCocktail, decide_eq_true_eq]
    exact h2
  refine ⟨?_, hp2⟩
  simp [PollutionDetector.detect, detectCore, hp1]

/-- Witness for C4: `voc = 0.62`, `iaq = 70`, `pm2.5 = 25` lies in both P1's
and P2's bands; the result is P1's signature rendered concretely. -/
theorem detect_priority_P1_over_P2_witness :
    (PollutionDetector.detect ⟨0, 0, 0, 0⟩ ⟨0.5, 0⟩ 70 0.62 0 0 0 50000 false 0 25 0 0).1 =
      ⟨true, false, "LETHAL_OPIOID_WEAPON_VOC:0.620_IAQ:70.0_EVACUATE"⟩ ∧
    detectChemicalCocktail 0.62 70 25 = true := by
  have h := detect_priority_P1_over_P2 ⟨0, 0, 0, 0⟩ ⟨0.5, 0⟩ 70 0.62 0 0 0 50000 false 0 25 0 0
    (by norm_num) (by norm_num)
  refine ⟨?_, h.2⟩
  rw [h.1, formatFixed_voc_062, formatFixed_iaq_70]
  rfl

/-- C5: the scopolamine predicate P8 holds exactly when all five bands hold
simultaneously; and whenever P8 is false (any field out of band) and the
higher-priority predicates P1-P7 are also false, `detect` falls through to
the lower-priority rules and the fallback ladder (`detectFromP9`). -/
theorem scopolamine_bands_iff_and_fallthrough :
    (∀ voc iaq pm2_5 humidity temp : ℚ,
       detectScopolamine voc iaq pm2_5 humidity temp = true ↔
         (0.495 ≤ voc ∧ voc ≤ 0.515 ∧ 49.5 ≤ iaq ∧ iaq ≤ 55.5 ∧
          2 ≤ pm2_5 ∧ pm2_5 ≤ 9 ∧ 78 ≤ humidity ∧ humidity ≤ 84 ∧
          29 ≤ temp ∧ temp ≤ 32)) ∧
    (∀ (d : PollutionDetector) (bs : BaselineState)
       (iaq voc co2 temp humidity rawGas : ℚ) (inSpike : Bool)
       (pm1 pm2_5 pm10 : ℚ) (now : ℕ),
       detectLethalOpioidWeapon voc iaq pm2_5 = false →
       detectChemicalCocktail voc iaq pm2_5 = false →
       detectNeurotoxinAttack voc iaq pm2_5 humidity = false →
       detectHeavyMetals voc iaq pm2_5 = false →
       detectOrganophosphates voc iaq humidity = false →
       detectGaseousWeapon iaq voc pm2_5 humidity = false →
       detectOpioids voc iaq pm2_5 = false →
       detectScopolamine voc iaq pm2_5 humidity temp = false →
       d.detect bs iaq voc co2 temp humidity rawGas inSpike pm1 pm2_5 pm10 now =
         (detectFromP9 (updateVOCBaseline bs voc now) iaq voc temp humidity rawGas inSpike pm2_5,
          updateVOCBaseline bs voc now)) := by
  constructor
  · intro voc iaq pm2_5 humidity temp
    simp [detectScopolamine]
  · intro d bs iaq voc co2 temp humidity rawGas inSpike pm1 pm2_5 pm10 now h1 h2 h3 h4 h5 h6 h7 h8
    simp [PollutionDetector.detect, detectCore, h1, h2, h3, h4, h5, h6, h7, h8]

/-- Witness for C5: at `temperature = 25` with every other field inside P8's
band (voc 0.505, iaq 52, pm2.5 5, humidity 80) the predicate is false and
`detect` reduces to the lower-priority scan `detectFromP9`. -/
theorem scopolamine_bands_iff_and_fallthrough_witness :
    detectScopolamine 0.505 52 5 80 25 = false ∧
    PollutionDetector.detect ⟨0, 0, 0, 0⟩ ⟨0.5, 0⟩ 52 0.505 0 25 80 50000 false 0 5 0 0 =
      (detectFromP9 ⟨0.5, 0⟩ 52 0.505 25 80 50000 false 5, ⟨0.5, 0⟩) := by
  have h8 : detectScopolamine 0.505 52 5 80 25 = false := by
    rw [← Bool.not_eq_true, scopolamine_bands_iff_and_fallthrough.1 0.505 52 5 80 25]
    norm_num
  refine ⟨h8, ?_⟩
  have hupd : updateVOCBaseline ⟨0.5, 0⟩ 0.505 0 = ⟨0.5, 0⟩ := by
    norm_num [updateVOCBaseline, usub32, UINT32_MOD, BASELINE_UPDATE_INTERVAL]
  have h := scopolamine_bands_iff_and_fallthrough.2 ⟨0, 0, 0, 0⟩ ⟨0.5, 0⟩
    52 0.505 0 25 80 50000 false 0 5 0 0
    (by simp only [detectLethalOpioidWeapon, decide_eq_false_iff_not]; norm_num)
    (by simp only [detectChemicalCocktail, decide_eq_false_iff_not]; norm_num)
    (by simp only [detectNeurotoxinAttack, decide_eq_false_iff_not]; norm_num)
    (by simp only [detectHeavyMetals, decide_eq_false_iff_not]; norm_num)
    (by simp only [detectOrganophosphates, decide_eq_false_iff_not]; norm_num)
    (by simp only [detectGaseousWeapon, decide_eq_false_iff_not]; norm_num)
    (by simp only [detectOpioids, decide_eq_false_iff_not]; norm_num)
    h8
  rw [h, hupd]

/-- Appending to the empty string is the identity. -/
theorem str_empty_append (s : String) : "" ++ s = s := by
  cases s
  rfl

/-- Evaluation rule for `formatFixed` on a nonnegative rational that is an
exact multiple of `10^-n`, reducing it to natural-number digit rendering. -/
theorem formatFixed_eval (x : ℚ) (n m : ℕ) (hx : 0 ≤ x)
    (hm : x * (10 : ℚ) ^ n = (m : ℚ)) :
    formatFixed x n =
      (if n = 0 then toString m
       else toString (m / 10 ^ n) ++ "." ++
         String.mk (List.replicate (n - (toString (m % 10 ^ n)).length) '0') ++
         toString (m % 10 ^ n)) := by
  have habs : |x| = x := abs_of_nonneg hx
  have hr : round (|x| * (10 : ℚ) ^ n) = (m : ℤ) := by
    rw [habs, hm]
    exact round_natCast m
  simp only [formatFixed, hr, Int.toNat_natCast, if_neg (not_lt.mpr hx)]
  split_ifs with h
  · exact str_empty_append _
  · rw [str_empty_append]

/-- C7: with `iaq ≤ 35`, `voc ≤ 0.4` and `rawGasResistance > 45000`, if the
IAQ-anomaly predicate P11 also fails (the only named predicate these bounds
do not already exclude), `detect` lands on the clean-air fallback rung: a
non-threat whose signature carries the `Clean_Air` prefix. -/
theorem detect_clean_air_fallback (d : PollutionDetector) (bs : BaselineState)
    (iaq voc co2 temp humidity rawGas : ℚ) (inSpike : Bool)
    (pm1 pm2_5 pm10 : ℚ) (now : ℕ)
    (hiaq : iaq ≤ 35) (hvoc : voc ≤ 0.4) (hgas : 45000 < rawGas)
    (hP11 : detectIAQAnomaly iaq voc (updateVOCBaseline bs voc now).vocBaseline = false) :
    (d.detect bs iaq voc co2 temp humidity rawGas inSpike pm1 pm2_5 pm10 now).1 =
      ⟨false, inSpike, "Clean_Air_IAQ" ++ formatFixed iaq 0 ++
        "_VOC" ++ formatFixed voc 2 ++ "ppm"⟩ := by
  have hp1 : detectLethalOpioidWeapon voc iaq pm2_5 = false := by
    simp only [detectLethalOpioidWeapon, decide_eq_false_iff_not]
    rintro ⟨-, -, h, -⟩; linarith
  have hp2 : detectChemicalCocktail voc iaq pm2_5 = false := by
    simp only [detectChemicalCocktail, decide_eq_false_iff_not]
    rintro ⟨-, -, h, -⟩; linarith
  have hp3 : detectNeurotoxinAttack voc iaq pm2_5 humidity = false := by
    simp only [detectNeurotoxinAttack, decide_eq_false_iff_not]
    rintro ⟨-, -, h, -⟩; linarith
  have hp4 : detectHeavyMetals voc iaq pm2_5 = false := by
    simp only [detectHeavyMetals, decide_eq_false_iff_not]
    rintro ⟨-, -, h, -⟩; linarith
  have hp5 : detectOrganophosphates voc iaq humidity = false := by
    simp only [detectOrganophosphates, decide_eq_false_iff_not]
    rintro ⟨-, -, h, -⟩; linarith
  have hp6 : detectGaseousWeapon iaq voc pm2_5 humidity = false := by
    simp only [detectGaseousWeapon, decide_eq_false_iff_not]
    rintro ⟨h, -⟩; linarith
  have hp7 : detectOpioids voc iaq pm2_5 = false := by
    simp only [detectOpioids, decide_eq_false_iff_not]
    rintro ⟨-, -, h, -⟩; linarith
  have hp8 : detectScopolamine voc iaq pm2_5 humidity temp = false := by
    simp only [detectScopolamine, decide_eq_false_iff_not]
    rintro ⟨-, -, h, -⟩; linarith
  have hp9 : detectBitterKnockout voc iaq rawGas = false := by
    simp only [detectBitterKnockout, decide_eq_false_iff_not]
    rintro ⟨h, -⟩; linarith
  have hp10 : detectStealthChemicalAttack rawGas humidity temp iaq = false := by
    simp only [detectStealthChemicalAttack, decide_eq_false_iff_not]
    rintro ⟨-, h, -⟩; linarith
  have hband : ¬(5595 ≤ rawGas ∧ rawGas ≤ 5605) := by
    rintro ⟨-, h⟩; linarith
  have hlow : ¬(rawGas < 10000) := by linarith
  have hsusp : ¬(rawGas < 25000) := by linarith
  simp [PollutionDetector.detect, detectCore, detectFromP9,
    hp1, hp2, hp3, hp4, hp5, hp6, hp7, hp8, hp9, hp10, hP11, hband,
    hlow, hsusp, hiaq, hvoc, hgas]

/-- Witness for C7: `iaq = 30`, `voc = 0.2`, `rawGasResistance = 50000` on
the initial baseline state yields the non-threat clean-air result with the
concrete signature `"Clean_Air_IAQ30_VOC0.20ppm"`. -/
theorem detect_clean_air_fallback_witness :
    (PollutionDetector.detect ⟨0, 0, 0, 0⟩ ⟨0.5, 0⟩ 30 0.2 0 0 0 50000 false 0 0 0 0).1 =
      ⟨false, false, "Clean_Air_IAQ30_VOC0.20ppm"⟩ := by
  have hupd : updateVOCBaseline ⟨0.5, 0⟩ 0.2 0 = ⟨0.5, 0⟩ := by
    norm_num [updateVOCBaseline, usub32, UINT32_MOD, BASELINE_UPDATE_INTERVAL]
  have h := detect_clean_air_fallback ⟨0, 0, 0, 0⟩ ⟨0.5, 0⟩ 30 0.2 0 0 0 50000 false 0 0 0 0
    (by norm_num) (by norm_num) (by norm_num)
    (by
      rw [hupd]
      simp only [detectIAQAnomaly, decide_eq_false_iff_not]
      rintro ⟨-, habs⟩
      rw [abs_sub_comm, abs_of_nonneg (by norm_num : (0 : ℚ) ≤ 0.5 - 0.2)] at habs
      linarith)
  rw [h, formatFixed_eval 30 0 30 (by norm_num) (by norm_num),
    formatFixed_eval 0.2 2 20 (by norm_num) (by norm_num)]
  rfl

/-- C6: when the higher-priority predicates P1-P11 all fail and
`rawGasResistance` lies in [5595, 5605], the LPG sub-branch decides on the
VOC deviation from the updated baseline: a deviation of at least 0.005
yields a threat whose signature carries an explicit sign and the deviation
magnitude to 3 decimals, while a smaller deviation yields the non-threat
LPG-carrier-only result. -/
theorem detect_lpg_subbranch (d : PollutionDetector) (bs : BaselineState)
    (iaq voc co2 temp humidity rawGas : ℚ) (inSpike : Bool)
    (pm1 pm2_5 pm10 : ℚ) (now : ℕ)
    (hp1 : detectLethalOpioidWeapon voc iaq pm2_5 = false)
    (hp2 : detectChemicalCocktail voc iaq pm2_5 = false)
    (hp3 : detectNeurotoxinAttack voc iaq pm2_5 humidity = false)
    (hp4 : detectHeavyMetals voc iaq pm2_5 = false)
    (hp5 : detectOrganophosphates voc iaq humidity = false)
    (hp6 : detectGaseousWeapon iaq voc pm2_5 humidity = false)
    (hp7 : detectOpioids voc iaq pm2_5 = false)
    (hp8 : detectScopolamine voc iaq pm2_5 humidity temp = false)
    (hp9 : detectBitterKnockout voc iaq rawGas = false)
    (hp10 : detectStealthChemicalAttack rawGas humidity temp iaq = false)
    (hp11 : detectIAQAnomaly iaq voc (updateVOCBaseline bs voc now).vocBaseline = false)
    (hband : 5595 ≤ rawGas ∧ rawGas ≤ 5605) :
    (0.005 ≤ |voc - (updateVOCBaseline bs voc now).vocBaseline| →
       (d.detect bs iaq voc co2 temp humidity rawGas inSpike pm1 pm2_5 pm10 now).1 =
         ⟨true, inSpike, "DRUG_DELIVERY_IN_LPG_VOC" ++
           (if 0 < voc - (updateVOCBaseline bs voc now).vocBaseline then "+" else "-") ++
           formatFixed |voc - (updateVOCBaseline bs voc now).vocBaseline| 3 ++ "ppm"⟩) ∧
    (|voc - (updateVOCBaseline bs voc now).vocBaseline| < 0.005 →
       (d.detect bs iaq voc co2 temp humidity rawGas inSpike pm1 pm2_5 pm10 now).1 =
         ⟨false, inSpike, "LPG_CARRIER_ONLY_VOC:" ++ formatFixed voc 3⟩) := by
  constructor
  · intro hdev
    simp [PollutionDetector.detect, detectCore, detectFromP9,
      hp1, hp2, hp3, hp4, hp5, hp6, hp7, hp8, hp9, hp10, hp11, hband, hdev]
  · intro hdev
    have hdev2 : ¬(0.005 ≤ |voc - (updateVOCBaseline bs voc now).vocBaseline|) :=
      not_le.mpr hdev
    simp [PollutionDetector.detect, detectCore, detectFromP9,
      hp1, hp2, hp3, hp4, hp5, hp6, hp7, hp8, hp9, hp10, hp11, hband, hdev2]


/-- Witness for C6: at `rawGasResistance = 5600` on the initial baseline
(0.5), `voc = 0.51` (deviation +0.01) gives the threat signature
`"DRUG_DELIVERY_IN_LPG_VOC+0.010ppm"`, and `voc = 0.5` (deviation 0) gives
the non-threat `"LPG_CARRIER_ONLY_VOC:0.500"`. -/
theorem detect_lpg_subbranch_witness :
    (PollutionDetector.detect ⟨0, 0, 0, 0⟩ ⟨0.5, 0⟩ 45 0.51 0 0 0 5600 false 0 0 0 0).1 =
      ⟨true, false, "DRUG_DELIVERY_IN_LPG_VOC+0.010ppm"⟩ ∧
    (PollutionDetector.detect ⟨0, 0, 0, 0⟩ ⟨0.5, 0⟩ 45 0.5 0 0 0 5600 false 0 0 0 0).1 =
      ⟨false, false, "LPG_CARRIER_ONLY_VOC:0.500"⟩ := by
  have hupdA : updateVOCBaseline ⟨0.5, 0⟩ 0.51 0 = ⟨0.5, 0⟩ := by
    norm_num [updateVOCBaseline, usub32, UINT32_MOD, BASELINE_UPDATE_INTERVAL]
  have hupdB : updateVOCBaseline ⟨0.5, 0⟩ 0.5 0 = ⟨0.5, 0⟩ := by
    norm_num [updateVOCBaseline, usub32, UINT32_MOD, BASELINE_UPDATE_INTERVAL]
  constructor
  · have h := (detect_lpg_subbranch ⟨0, 0, 0, 0⟩ ⟨0.5, 0⟩ 45 0.51 0 0 0 5600 false 0 0 0 0
      (by simp only [detectLethalOpioidWeapon, decide_eq_false_iff_not]; norm_num)
      (by simp only [detectChemicalCocktail, decide_eq_false_iff_not]; norm_num)
      (by simp only [detectNeurotoxinAttack, decide_eq_false_iff_not]; norm_num)
      (by simp only [detectHeavyMetals, decide_eq_false_iff_not]; norm_num)
      (by simp only [detectOrganophosphates, decide_eq_false_iff_not]; norm_num)
      (by simp only [detectGaseousWeapon, decide_eq_false_iff_not]; norm_num)
      (by simp only [detectOpioids, decide_eq_false_iff_not]; norm_num)
      (by simp only [detectScopolamine, decide_eq_false_iff_not]; norm_num)
      (by simp only [detectBitterKnockout, decide_eq_false_iff_not]; norm_num)
      (by simp only [detectStealthChemicalAttack, decide_eq_false_iff_not]; norm_num)
      (by rw [hupdA]; simp only [detectIAQAnomaly, decide_eq_false_iff_not]; norm_num)
      (by norm_num)).1
      (by
        rw [hupdA]
        rw [show |(0.51 : ℚ) - (⟨0.5, 0⟩ : BaselineState).vocBaseline| = 0.01 from by norm_num]
        norm_num)
    rw [hupdA] at h
    rw [show (0.51 : ℚ) - (⟨0.5, 0⟩ : BaselineState).vocBaseline = 0.01 from by norm_num] at h
    rw [if_pos (by norm_num : (0 : ℚ) < 0.01)] at h
    rw [show |(0.01 : ℚ)| = 0.01 from by norm_num] at h
    rw [formatFixed_eval 0.01 3 10 (by norm_num) (by norm_num)] at h
    rw [h]
    rfl
  · have h := (detect_lpg_subbranch ⟨0, 0, 0, 0⟩ ⟨0.5, 0⟩ 45 0.5 0 0 0 5600 false 0 0 0 0
      (by simp only [detectLethalOpioidWeapon, decide_eq_false_iff_not]; norm_num)
      (by simp only [detectChemicalCocktail, decide_eq_false_iff_not]; norm_num)
      (by simp only [detectNeurotoxinAttack, decide_eq_false_iff_not]; norm_num)
      (by simp only [detectHeavyMetals, decide_eq_false_iff_not]; norm_num)
      (by simp only [detectOrganophosphates, decide_eq_false_iff_not]; norm_num)
      (by simp only [detectGaseousWeapon, decide_eq_false_iff_not]; norm_num)
      (by simp only [detectOpioids, decide_eq_false_iff_not]; norm_num)
      (by simp only [detectScopolamine, decide_eq_false_iff_not]; norm_num)
      (by simp only [detectBitterKnockout, decide_eq_false_iff_not]; norm_num)
      (by simp only [detectStealthChemicalAttack, decide_eq_false_iff_not]; norm_num)
      (by rw [hupdB]; simp only [detectIAQAnomaly, decide_eq_false_iff_not]; norm_num)
      (by norm_num)).2
      (by
        rw [hupdB]
        rw [show |(0.5 : ℚ) - (⟨0.5, 0⟩ : BaselineState).vocBaseline| = 0 from by norm_num]
        norm_num)
    rw [formatFixed_eval 0.5 3 500 (by norm_num) (by norm_num)] at h
    rw [h]
    rfl

/-- In the tail scan, a sample with low gas resistance is classified as a
threat unless the LPG-carrier-only sub-branch takes it: priorities 9-11
return threats, P12 returns a threat exactly when the VOC deviation reaches
0.005, and the fallback ladder's final override forces the threat flag
whenever `rawGasResistance < 10000`. -/
theorem detectFromP9_lowGas (bs1 : BaselineState) (iaq voc temp humidity rawGas : ℚ)
    (inSpike : Bool) (pm2_5 : ℚ) (hlow : rawGas < 10000) :
    (detectFromP9 bs1 iaq voc temp humidity rawGas inSpike pm2_5).isThreat = true ∨
    (5595 ≤ rawGas ∧ rawGas ≤ 5605 ∧ |voc - bs1.vocBaseline| < 0.005 ∧
     (detectFromP9 bs1 iaq voc temp humidity rawGas inSpike pm2_5).isThreat = false) := by
  simp only [detectFromP9]
  split_ifs <;>
    first
      | exact Or.inl rfl
      | exact absurd (decide_eq_true hlow) (by assumption)
      | (rename_i hband hdev
         exact Or.inr ⟨hband.1, hband.2, not_le.mp hdev, rfl⟩)

/-- C1 (amended): every call with `rawGasResistance < 10000` returns
`isThreat = true` unless it returns through P12's LPG-carrier-only
sub-branch, i.e. unless `rawGasResistance ∈ [5595, 5605]` and the VOC
deviation from the updated baseline is below 0.005, in which case
`isThreat = false`. -/
theorem detect_lowGas_threat_or_lpg_carrier (d : PollutionDetector) (bs : BaselineState)
    (iaq voc co2 temp humidity rawGas : ℚ) (inSpike : Bool)
    (pm1 pm2_5 pm10 : ℚ) (now : ℕ)
    (hlow : rawGas < 10000) :
    (d.detect bs iaq voc co2 temp humidity rawGas inSpike pm1 pm2_5 pm10 now).1.isThreat = true ∨
    (5595 ≤ rawGas ∧ rawGas ≤ 5605 ∧
     |voc - (updateVOCBaseline bs voc now).vocBaseline| < 0.005 ∧
     (d.detect bs iaq voc co2 temp humidity rawGas inSpike pm1 pm2_5 pm10 now).1.isThreat = false) := by
  simp only [PollutionDetector.detect, detectCore]
  split_ifs <;>
    first
      | exact Or.inl rfl
      | exact detectFromP9_lowGas (updateVOCBaseline bs voc now) iaq voc temp humidity rawGas
          inSpike pm2_5 hlow

/-- C1 counterexample: `rawGasResistance = 5600 < 10000` with `voc` equal to
the baseline (iaq 45 keeps every named predicate false) returns through the
LPG-carrier-only branch with `isThreat = false`, so low gas resistance does
not always force a threat. -/
theorem detect_lowGas_nonthreat_counterexample :
    (5600 : ℚ) < 10000 ∧
    (PollutionDetector.detect ⟨0, 0, 0, 0⟩ ⟨0.5, 0⟩ 45 0.5 0 0 0 5600 false 0 0 0 0).1.isThreat =
      false := by
  constructor
  · norm_num
  · norm_num [PollutionDetector.detect, detectCore, detectFromP9, updateVOCBaseline, usub32,
      UINT32_MOD, BASELINE_UPDATE_INTERVAL, detectLethalOpioidWeapon, detectChemicalCocktail,
      detectNeurotoxinAttack, detectHeavyMetals, detectOrganophosphates, detectGaseousWeapon,
      detectOpioids, detectScopolamine, detectBitterKnockout, detectStealthChemicalAttack,
      detectIAQAnomaly]

/-- Witness for C1 (amended): the dichotomy applied at the concrete carrier
sample (`rawGasResistance = 5600`, `voc` at baseline). -/
theorem detect_lowGas_threat_or_lpg_carrier_witness :
    (PollutionDetector.detect ⟨0, 0, 0, 0⟩ ⟨0.5, 0⟩ 45 0.5 0 0 0 5600 false 0 0 0 0).1.isThreat =
      true ∨
    (5595 ≤ (5600 : ℚ) ∧ (5600 : ℚ) ≤ 5605 ∧
     |(0.5 : ℚ) - (updateVOCBaseline ⟨0.5, 0⟩ 0.5 0).vocBaseline| < 0.005 ∧
     (PollutionDetector.detect ⟨0, 0, 0, 0⟩ ⟨0.5, 0⟩ 45 0.5 0 0 0 5600 false 0 0 0 0).1.isThreat =
       false) :=
  detect_lowGas_threat_or_lpg_carrier ⟨0, 0, 0, 0⟩ ⟨0.5, 0⟩ 45 0.5 0 0 0 5600 false 0 0 0 0
    (by norm_num)

/-- In the tail scan, a non-threat verdict forces the gas resistance into
one of two regions: the LPG band [5595, 5605] (carrier-only branch) or
`rawGasResistance ≥ 25000` (clean-air rung, which needs `> 45000`, or the
unknown-analysis rung with the suspicious-gas flag clear); the final
low-gas override excludes everything below 10000 on the fallback path. -/
theorem detectFromP9_nonthreat (bs1 : BaselineState) (iaq voc temp humidity rawGas : ℚ)
    (inSpike : Bool) (pm2_5 : ℚ) :
    (detectFromP9 bs1 iaq voc temp humidity rawGas inSpike pm2_5).isThreat = false →
    25000 ≤ rawGas ∨ (5595 ≤ rawGas ∧ rawGas ≤ 5605) := by
  simp only [detectFromP9]
  split_ifs <;> intro h <;>
    first
      | exact h.elim
      | exact Bool.noConfusion h
      | (rename_i hband hdev
         exact Or.inr hband)
      | exact Or.inl (by
          rcases (by assumption : iaq ≤ 35 ∧ voc ≤ 0.4 ∧ 45000 < rawGas) with ⟨-, -, hgt⟩
          linarith)
      | exact Or.inl (not_lt.mp (of_decide_eq_false h))

/-- C10: every `detect` result with `isThreat = false` has
`rawGasResistance ≥ 25000` or `rawGasResistance ∈ [5595, 5605]` — the only
non-threat exits are the LPG-carrier-only branch, the clean-air rung and
the unknown-analysis rung with the suspicious-gas flag clear. -/
theorem detect_nonthreat_gas_characterization (d : PollutionDetector) (bs : BaselineState)
    (iaq voc co2 temp humidity rawGas : ℚ) (inSpike : Bool)
    (pm1 pm2_5 pm10 : ℚ) (now : ℕ)
    (h : (d.detect bs iaq voc co2 temp humidity rawGas inSpike pm1 pm2_5 pm10 now).1.isThreat =
      false) :
    25000 ≤ rawGas ∨ (5595 ≤ rawGas ∧ rawGas ≤ 5605) := by
  revert h
  simp only [PollutionDetector.detect, detectCore]
  split_ifs <;> intro h <;>
    first
      | exact h.elim
      | exact Bool.noConfusion h
      | exact detectFromP9_nonthreat (updateVOCBaseline bs voc now) iaq voc temp humidity rawGas
          inSpike pm2_5 h

/-- Witness for C10: the clean-air sample (`rawGasResistance = 50000`)
returns a non-threat, and the characterization places it in the
high-resistance region. -/
theorem detect_nonthreat_gas_characterization_witness :
    (25000 : ℚ) ≤ 50000 ∨ (5595 ≤ (50000 : ℚ) ∧ (50000 : ℚ) ≤ 5605) :=
  detect_nonthreat_gas_characterization ⟨0, 0, 0, 0⟩ ⟨0.5, 0⟩ 30 0.2 0 0 0 50000 false 0 0 0 0
    (by
      have habs : |(3 : ℚ) / 10| = 3 / 10 := abs_of_nonneg (by norm_num)
      norm_num [habs, PollutionDetector.detect, detectCore, detectFromP9, updateVOCBaseline,
        usub32, UINT32_MOD, BASELINE_UPDATE_INTERVAL, detectLethalOpioidWeapon,
        detectChemicalCocktail, detectNeurotoxinAttack, detectHeavyMetals, detectOrganophosphates,
        detectGaseousWeapon, detectOpioids, detectScopolamine, detectBitterKnockout,
        detectStealthChemicalAttack, detectIAQAnomaly])
